import Mathlib

/-!
Shallow embedding of the core of `audit_form_structure.py` (HotelAudit):
the audit-session data model (`ChecklistItem`, `AuditResponse`, `AuditSession`),
the checklist-catalog loader, and the two exporters (tabular / document),
together with proofs of the specified properties.

Python `datetime` values are modelled by the `DateTime` structure below;
`None`-able strings by `Option String`; Python lists by `List`; the insertion
-ordered Python `dict` used by `get_responses_by_section` by an association
list.  File-system effects are modelled by passing the outcome of the write
explicitly (a `Bool`, or the `CatalogLoad` outcome for the catalog loader).
-/

/-- A UTC instant as Python's `datetime` exposes it: calendar fields plus
microseconds.  Python's `datetime` guarantees the bounds of `DateTime.Valid`
below. -/
structure DateTime where
  year : Nat
  month : Nat
  day : Nat
  hour : Nat
  minute : Nat
  second : Nat
  microsecond : Nat
deriving DecidableEq, Repr

/-- The invariants Python's `datetime` maintains on its fields
(`datetime.MINYEAR = 1`, `datetime.MAXYEAR = 9999`). -/
def DateTime.Valid (t : DateTime) : Prop :=
  1 ≤ t.year ∧ t.year ≤ 9999 ∧
  1 ≤ t.month ∧ t.month ≤ 12 ∧
  1 ≤ t.day ∧ t.day ≤ 31 ∧
  t.hour ≤ 23 ∧ t.minute ≤ 59 ∧ t.second ≤ 59 ∧
  t.microsecond < 1000000

instance (t : DateTime) : Decidable t.Valid := by
  unfold DateTime.Valid; infer_instance

/-- The decimal digit character for `n % 10`, as produced by `%d` formatting. -/
def digitChar (n : Nat) : Char :=
  match n % 10 with
  | 0 => '0' | 1 => '1' | 2 => '2' | 3 => '3' | 4 => '4'
  | 5 => '5' | 6 => '6' | 7 => '7' | 8 => '8' | _ => '9'

/-- Digit value of a digit character (inverse of `digitChar`). -/
def digitVal (c : Char) : Nat :=
  match c with
  | '0' => 0 | '1' => 1 | '2' => 2 | '3' => 3 | '4' => 4
  | '5' => 5 | '6' => 6 | '7' => 7 | '8' => 8 | _ => 9

/-- Zero-padded two-digit rendering (`%02d`) of `n`, for `n < 100`. -/
def pad2 (n : Nat) : List Char := [digitChar (n / 10), digitChar n]

/-- Zero-padded four-digit rendering (`%04d`) of `n`, for `n < 10000`. -/
def pad4 (n : Nat) : List Char :=
  [digitChar (n / 1000), digitChar (n / 100), digitChar (n / 10), digitChar n]

/-- Zero-padded six-digit rendering (`%06d`) of `n`, for `n < 1000000`. -/
def pad6 (n : Nat) : List Char :=
  [digitChar (n / 100000), digitChar (n / 10000), digitChar (n / 1000),
   digitChar (n / 100), digitChar (n / 10), digitChar n]

/-- Python `datetime.isoformat()`: `YYYY-MM-DDTHH:MM:SS` plus `.ffffff`
exactly when `microsecond ≠ 0`. -/
def DateTime.isoformat (t : DateTime) : String :=
  String.mk (pad4 t.year ++ '-' :: pad2 t.month ++ '-' :: pad2 t.day ++
    'T' :: pad2 t.hour ++ ':' :: pad2 t.minute ++ ':' :: pad2 t.second ++
    (if t.microsecond = 0 then [] else '.' :: pad6 t.microsecond))

/-- Python `strftime('%Y-%m-%d %H:%M')` — minute precision, used by the
tabular exporter's Timestamp column. -/
def DateTime.minuteFormat (t : DateTime) : String :=
  String.mk (pad4 t.year ++ '-' :: pad2 t.month ++ '-' :: pad2 t.day ++
    ' ' :: pad2 t.hour ++ ':' :: pad2 t.minute)

/-- Python `strftime('%Y%m%d_%H%M%S')` — the compact stamp used in
`session_id`. -/
def DateTime.compactFormat (t : DateTime) : String :=
  String.mk (pad4 t.year ++ pad2 t.month ++ pad2 t.day ++
    '_' :: pad2 t.hour ++ pad2 t.minute ++ pad2 t.second)

/-- `ChecklistItem` from the source: one auditable question in a section. -/
structure ChecklistItem where
  «section» : String
  item : String
  note : String := "Provide observation or reason"
deriving DecidableEq, Repr

/-- `AuditResponse` from the source: one recorded answer; `timestamp` is
assigned at construction (the clock is threaded explicitly here). -/
structure AuditResponse where
  checklist_item : ChecklistItem
  rating : String
  comment : String
  photo_file : Option String
  context : Option String := none
  timestamp : DateTime
deriving DecidableEq, Repr

/-- The hotel-metadata fields of `hotel_info` that the embedded core reads
(`hotel_info.get(...)` with a default); `none` models an absent key; values
are kept as their rendered strings. -/
structure HotelInfo where
  name : Option String
  city : Option String := none
  country : Option String := none
  year_opened : Option String := none
  floors : Option String := none
  total_rooms : Option String := none
deriving DecidableEq, Repr

/-- `AuditSession` from the source. -/
structure AuditSession where
  session_id : String
  hotel_info : HotelInfo
  auditor_name : String
  timestamp : DateTime
  responses : List AuditResponse
deriving DecidableEq, Repr

/-- Python `s.replace(' ', '_')`: every space becomes an underscore. -/
def replaceSpaces (s : String) : String :=
  String.mk (s.data.map fun c => if c = ' ' then '_' else c)

/-- The `session_id` computed in `AuditSession.__init__`:
`hotel_info.get("name", "Hotel").replace(' ', '_')` followed by `_` and the
creation instant as `%Y%m%d_%H%M%S`. -/
def sessionIdOf (info : HotelInfo) (now : DateTime) : String :=
  replaceSpaces (info.name.getD "Hotel") ++ "_" ++ now.compactFormat

/-- `AuditSession.__init__`: fresh session with empty response list; `now`
is the construction instant (`datetime.utcnow()`). -/
def AuditSession.init (info : HotelInfo) (auditor_name : String)
    (now : DateTime) : AuditSession :=
  { session_id := sessionIdOf info now
    hotel_info := info
    auditor_name := auditor_name
    timestamp := now
    responses := [] }

/-- `AuditSession.add_response`: appends, never rejects. -/
def AuditSession.add_response (s : AuditSession) (r : AuditResponse) :
    AuditSession :=
  { s with responses := s.responses ++ [r] }

/-- `GENERAL_CATEGORIES` from the source. -/
def GENERAL_CATEGORIES : List String :=
  ["Facade & Structure", "Main Lobby", "Corridors & Hallways", "Public Toilets",
   "Spa & Wellness", "Fitness Center", "Swimming Pools",
   "Landscaping & Outdoor", "Parking & Entry"]

/-- `RATING_OPTIONS` from the source: the four canonical rating strings. -/
def RATING_OPTIONS : List String :=
  ["1 - Needs to be changed due to age-related factors",
   "2 - Needs to be changed to match competing hotels",
   "3 - Not applicable",
   "4 - No action required"]

/-- The delimiter `" - "` used by `rating.split(" - ")`. -/
def DELIM : List Char := [' ', '-', ' ']

/-- Split a character list at the first occurrence of `sep` (Python
`s.split(sep, 1)` when `sep` occurs; `none` models "no occurrence", i.e.
Python `sep not in s`). -/
def splitFirstAux (sep : List Char) : List Char → Option (List Char × List Char)
  | [] => none
  | c :: cs =>
    if sep.isPrefixOf (c :: cs) then some ([], (c :: cs).drop sep.length)
    else
      match splitFirstAux sep cs with
      | none => none
      | some (pre, post) => some (c :: pre, post)

/-- `rating.split(" - ", 1)[1] if " - " in rating else rating` — the body of
the `rating_description` property, at the string level. -/
def ratingDescriptionStr (rating : String) : String :=
  match splitFirstAux DELIM rating.data with
  | some (_, post) => String.mk post
  | none => rating

/-- `AuditResponse.rating_description` from the source. -/
def AuditResponse.rating_description (r : AuditResponse) : String :=
  ratingDescriptionStr r.rating

/-- `rating.split(" - ")[0]`: the part before the first `" - "`, or the whole
string when the delimiter is absent (Python `split` of a string without the
separator yields the one-element list `[rating]`). -/
def ratingNum (rating : String) : List Char :=
  match splitFirstAux DELIM rating.data with
  | some (pre, _) => pre
  | none => rating.data

/-- The rating cell computed inside `generate_excel_data`:
`next((opt for opt in RATING_OPTIONS if opt.startswith(rating_num)), rating)`. -/
def resolveRating (rating : String) : String :=
  (RATING_OPTIONS.find? fun opt => (ratingNum rating).isPrefixOf opt.data).getD
    rating

/-- One row of the worksheet built by `generate_excel_data`; field names are
the dict keys of the source. -/
structure ExcelRow where
  Section : String
  Item : String
  Rating : String
  Comment : String
  Context : String
  Photo : String
  Timestamp : String
deriving DecidableEq, Repr

/-- The row `generate_excel_data` appends for one response.  Python
truthiness: `response.context or "General"` yields `"General"` both for
`None` and for the empty string, and `"Yes" if response.photo_file else "No"`
yields `"No"` both for `None` and for the empty string. -/
def excelRowOf (r : AuditResponse) : ExcelRow :=
  { Section := r.checklist_item.«section»
    Item := r.checklist_item.item
    Rating := resolveRating r.rating
    Comment := r.comment
    Context :=
      match r.context with
      | none => "General"
      | some c => if c = "" then "General" else c
    Photo :=
      match r.photo_file with
      | none => "No"
      | some p => if p = "" then "No" else "Yes"
    Timestamp := r.timestamp.minuteFormat }

/-- The `pd.DataFrame` produced by `generate_excel_data`: pandas infers the
columns of `DataFrame(data)` from the keys of the row dicts (all rows share
the same seven keys, in insertion order), and `DataFrame([])` has no columns
at all. -/
structure DataFrame where
  columns : List String
  rows : List ExcelRow
deriving DecidableEq, Repr

/-- The seven column keys every row dict of `generate_excel_data` carries. -/
def EXCEL_HEADERS : List String :=
  ["Section", "Item", "Rating", "Comment", "Context", "Photo", "Timestamp"]

/-- `generate_excel_data` from the source. -/
def generate_excel_data (s : AuditSession) : DataFrame :=
  let data := s.responses.map excelRowOf
  { columns := if data.isEmpty then [] else EXCEL_HEADERS
    rows := data }

/-- One update step of the `sections` dict in `get_responses_by_section`:
append to the key's list if the key is present, else insert the key at the
end (Python dicts preserve insertion order). -/
def addToSections (acc : List (String × List AuditResponse))
    (r : AuditResponse) : List (String × List AuditResponse) :=
  if acc.any (fun e => e.1 = r.checklist_item.«section») then
    acc.map fun e =>
      if e.1 = r.checklist_item.«section» then (e.1, e.2 ++ [r]) else e
  else acc ++ [(r.checklist_item.«section», [r])]

/-- `AuditSession.get_responses_by_section` from the source, with the
insertion-ordered dict modelled as an association list. -/
def AuditSession.get_responses_by_section (s : AuditSession) :
    List (String × List AuditResponse) :=
  List.foldl addToSections [] s.responses

/-- Dict lookup on the association list, returning `[]` for an absent key. -/
def lookupSec (k : String) :
    List (String × List AuditResponse) → List AuditResponse
  | [] => []
  | e :: rest => if e.1 = k then e.2 else lookupSec k rest

/-- The clear-by-key loop of `general_section_audit` /
`specific_section_audit`: first gather the matching responses, then
`session.responses.remove(r)` for each of them in order (`list.remove`
deletes the first occurrence). -/
def clearMatching (rs : List AuditResponse) (p : AuditResponse → Bool) :
    List AuditResponse :=
  List.foldl (fun acc r => acc.erase r) rs (rs.filter p)

/-- The (section, item, context) key the spec's clear operation is indexed
by. -/
def matchesKey (k : String × String × Option String) (r : AuditResponse) :
    Bool :=
  r.checklist_item.«section» == k.1 && r.checklist_item.item == k.2.1 &&
    r.context == k.2.2

/-- `AuditResponse.to_dict` output: the serialized record, with `timestamp`
already rendered to its ISO-8601 string. -/
structure ResponseDict where
  context : Option String
  «section» : String
  item : String
  note : String
  rating : String
  comment : String
  photo_file : Option String
  timestamp : String
deriving DecidableEq, Repr

/-- `AuditResponse.to_dict` from the source. -/
def AuditResponse.to_dict (r : AuditResponse) : ResponseDict :=
  { context := r.context
    «section» := r.checklist_item.«section»
    item := r.checklist_item.item
    note := r.checklist_item.note
    rating := r.rating
    comment := r.comment
    photo_file := r.photo_file
    timestamp := r.timestamp.isoformat }

/-- `AuditSession.to_dict` output. -/
structure SessionDict where
  session_id : String
  hotel_info : HotelInfo
  auditor_name : String
  timestamp : String
  responses : List ResponseDict
deriving DecidableEq, Repr

/-- `AuditSession.to_dict` from the source. -/
def AuditSession.to_dict (s : AuditSession) : SessionDict :=
  { session_id := s.session_id
    hotel_info := s.hotel_info
    auditor_name := s.auditor_name
    timestamp := s.timestamp.isoformat
    responses := s.responses.map AuditResponse.to_dict }

/-- `AuditSession.save_to_file` from the source: computes the intended path,
tries the write inside `try/except` (the outcome is the `writeOk` argument
here), surfaces an error on failure, and returns the path either way; the
session itself is never assigned to.  Result: (returned path, whether an
error was surfaced, the session state after the call). -/
def AuditSession.save_to_file (s : AuditSession) (writeOk : Bool) :
    String × Bool × AuditSession :=
  ("audits/" ++ s.session_id ++ ".json", !writeOk, s)

/-- The three text lines of one numbered finding in the PDF findings block,
numbered from `i`; `f" ({r.context})" if r.context else ""` is Python
truthiness again (empty string counts as absent). -/
def findingLines : Nat → List AuditResponse → List String
  | _, [] => []
  | i, r :: rest =>
    (toString i ++ ". Item: " ++ r.checklist_item.item ++
        (match r.context with
         | none => ""
         | some c => if c = "" then "" else " (" ++ c ++ ")")) ::
      ("Rating: " ++ r.rating_description) ::
      ("Comment: " ++ r.comment) ::
      findingLines (i + 1) rest

/-- The text content of the PDF built by `generate_pdf_report`, line by
line: title, hotel-information block with `N/A` placeholders, auditor/date
block, then one subsection per entry of `get_responses_by_section` with its
findings numbered from 1. -/
def pdfLines (s : AuditSession) : List String :=
  ["Hotel Audit Report",
   "Hotel Information",
   "Hotel Name: " ++ s.hotel_info.name.getD "N/A",
   "Location: " ++ s.hotel_info.city.getD "N/A" ++ ", " ++
     s.hotel_info.country.getD "N/A",
   "Year Opened: " ++ s.hotel_info.year_opened.getD "N/A",
   "Floors: " ++ s.hotel_info.floors.getD "N/A",
   "Total Rooms: " ++ s.hotel_info.total_rooms.getD "N/A",
   "Auditor: " ++ s.auditor_name,
   "Date: " ++ s.timestamp.minuteFormat,
   "Audit Findings"] ++
  s.get_responses_by_section.foldr
    (fun e acc => ("Section: " ++ e.1) :: findingLines 1 e.2 ++ acc) []

/-- `generate_pdf_report` from the source: builds the document, computes the
intended path, tries `pdf.output` inside `try/except` (outcome = `writeOk`),
surfaces an error on failure, and returns the path either way; the session
is never assigned to.  Result: (document lines, returned path, whether an
error was surfaced, session state after the call). -/
def generate_pdf_report (s : AuditSession) (writeOk : Bool) :
    List String × String × Bool × AuditSession :=
  (pdfLines s, "audits/" ++ s.session_id ++ ".pdf", !writeOk, s)

/-- `load_master_checklist`'s three outcomes: the file parsed to a checklist,
`FileNotFoundError`, or any other exception. -/
inductive CatalogLoad where
  | ok (checklist : List (String × List String))
  | fileNotFound
  | otherError
deriving DecidableEq, Repr

/-- `load_master_checklist` from the source: total over all load outcomes
(both `except` arms return instead of re-raising, so the function never
raises). -/
def load_master_checklist : CatalogLoad → List (String × List String)
  | .ok c => c
  | .fileNotFound =>
      (GENERAL_CATEGORIES ++
        ["F&B Outlets", "Ballrooms & Meeting Rooms", "Guestroom"]).map
        fun c => (c, [])
  | .otherError => []

/-! ## Concrete sample data used to instantiate the theorems -/

/-- A fixed valid capture instant. -/
def sampleTime : DateTime :=
  { year := 2025, month := 3, day := 14, hour := 10, minute := 30,
    second := 0, microsecond := 0 }

/-- The checklist item of the spec's worked example. -/
def lobbyItem : ChecklistItem :=
  { «section» := "Main Lobby", item := "Flooring condition" }

/-- The response of the spec's worked example (context and photo absent). -/
def sampleResponse : AuditResponse :=
  { checklist_item := lobbyItem
    rating := "2 - Needs to be changed to match competing hotels"
    comment := "Worn carpet"
    photo_file := none
    context := none
    timestamp := sampleTime }

/-- The worked-example session: one response, generic hotel/auditor, built
at instant `t`. -/
def exampleSession (t : DateTime) : AuditSession :=
  (AuditSession.init { name := some "Hotel X" } "Auditor" t).add_response
    { checklist_item := lobbyItem
      rating := "2 - Needs to be changed to match competing hotels"
      comment := "Worn carpet"
      photo_file := none
      context := none
      timestamp := t }

/-- A session holding one response whose `context` and `photo_file` are the
empty string — Python-falsy but not `None`. -/
def emptyStringFieldsSession : AuditSession :=
  (AuditSession.init { name := some "Hotel X" } "Auditor"
      sampleTime).add_response
    { checklist_item := lobbyItem
      rating := "3 - Not applicable"
      comment := ""
      photo_file := some ""
      context := some ""
      timestamp := sampleTime }

/-- A session with no responses at all. -/
def emptySession : AuditSession :=
  AuditSession.init { name := some "Hotel X" } "Auditor" sampleTime

/-- A response whose rating string is empty. -/
def emptyRatingResponse : AuditResponse :=
  { checklist_item := lobbyItem
    rating := ""
    comment := ""
    photo_file := none
    context := none
    timestamp := sampleTime }

/-- A response with an off-catalog rating that still contains the `" - "`
delimiter. -/
def offScaleResponse : AuditResponse :=
  { checklist_item := lobbyItem
    rating := "9 - foo"
    comment := ""
    photo_file := none
    context := none
    timestamp := sampleTime }

/-! ## Helper lemmas -/

theorem digitVal_digitChar (n : Nat) : digitVal (digitChar n) = n % 10 := by
  have h : n % 10 = 0 ∨ n % 10 = 1 ∨ n % 10 = 2 ∨ n % 10 = 3 ∨ n % 10 = 4 ∨
      n % 10 = 5 ∨ n % 10 = 6 ∨ n % 10 = 7 ∨ n % 10 = 8 ∨ n % 10 = 9 := by
    omega
  rcases h with h|h|h|h|h|h|h|h|h|h <;> simp [digitChar, digitVal, h]

theorem digitChar_inj_mod {a b : Nat} (h : digitChar a = digitChar b) :
    a % 10 = b % 10 := by
  have h' := congrArg digitVal h
  rwa [digitVal_digitChar, digitVal_digitChar] at h'

/-- Two valid instants with the same ISO-8601 rendering are equal: Python's
`isoformat()` loses no information (`fromisoformat` round-trips it). -/
theorem isoformat_inj (t₁ t₂ : DateTime) (h₁ : t₁.Valid) (h₂ : t₂.Valid)
    (h : t₁.isoformat = t₂.isoformat) : t₁ = t₂ := by
  obtain ⟨hy1a, hy1b, hm1a, hm1b, hd1a, hd1b, hh1, hmi1, hs1, hu1⟩ := h₁
  obtain ⟨hy2a, hy2b, hm2a, hm2b, hd2a, hd2b, hh2, hmi2, hs2, hu2⟩ := h₂
  unfold DateTime.isoformat at h
  have h' := congrArg String.data h
  simp [pad4, pad2, List.cons.injEq] at h'
  obtain ⟨ey3, ey2, ey1, ey0, emo1, emo0, ed1, ed0, eh1, eh0, emi1, emi0,
    es1, es0, etail⟩ := h'
  have gy3 := digitChar_inj_mod ey3
  have gy2 := digitChar_inj_mod ey2
  have gy1 := digitChar_inj_mod ey1
  have gy0 := digitChar_inj_mod ey0
  have gmo1 := digitChar_inj_mod emo1
  have gmo0 := digitChar_inj_mod emo0
  have gd1 := digitChar_inj_mod ed1
  have gd0 := digitChar_inj_mod ed0
  have gh1 := digitChar_inj_mod eh1
  have gh0 := digitChar_inj_mod eh0
  have gmi1 := digitChar_inj_mod emi1
  have gmi0 := digitChar_inj_mod emi0
  have gs1 := digitChar_inj_mod es1
  have gs0 := digitChar_inj_mod es0
  have gu : t₁.microsecond = t₂.microsecond := by
    by_cases m₁ : t₁.microsecond = 0 <;> by_cases m₂ : t₂.microsecond = 0
    · rw [m₁, m₂]
    · rw [if_pos m₁, if_neg m₂] at etail
      exact absurd etail (by simp)
    · rw [if_neg m₁, if_pos m₂] at etail
      exact absurd etail (by simp)
    · rw [if_neg m₁, if_neg m₂] at etail
      simp [pad6, List.cons.injEq] at etail
      obtain ⟨eu5, eu4, eu3, eu2, eu1, eu0⟩ := etail
      have gu5 := digitChar_inj_mod eu5
      have gu4 := digitChar_inj_mod eu4
      have gu3 := digitChar_inj_mod eu3
      have gu2 := digitChar_inj_mod eu2
      have gu1 := digitChar_inj_mod eu1
      have gu0 := digitChar_inj_mod eu0
      omega
  cases t₁
  cases t₂
  simp only [DateTime.mk.injEq]
  dsimp only at *
  omega

theorem foldl_erase_cons_of_ne {α : Type} [DecidableEq α] (x : α)
    (ms : List α) (hms : ∀ m ∈ ms, m ≠ x) :
    ∀ t : List α,
      List.foldl (fun acc r => acc.erase r) (x :: t) ms =
        x :: List.foldl (fun acc r => acc.erase r) t ms := by
  induction ms with
  | nil => intro t; rfl
  | cons m ms ih =>
    intro t
    have hmx : m ≠ x := hms m (by simp)
    simp only [List.foldl_cons]
    rw [List.erase_cons_tail (by simp [Ne.symm hmx])]
    exact ih (fun a ha => hms a (by simp [ha])) (t.erase m)

theorem foldl_erase_filter {α : Type} [DecidableEq α] (p : α → Bool)
    (l : List α) :
    List.foldl (fun acc r => acc.erase r) l (l.filter p) =
      l.filter (fun x => !(p x)) := by
  induction l with
  | nil => rfl
  | cons x t ih =>
    by_cases hx : p x
    · rw [List.filter_cons_of_pos hx, List.foldl_cons, List.erase_cons_head,
        List.filter_cons_of_neg (by simp [hx])]
      exact ih
    · rw [List.filter_cons_of_neg (by simp [hx]),
        List.filter_cons_of_pos (by simp [hx]),
        foldl_erase_cons_of_ne x (t.filter p)
          (fun m hm h => hx (h ▸ (List.of_mem_filter hm))), ih]

theorem map_fst_update (acc : List (String × List AuditResponse))
    (sec : String) (r : AuditResponse) :
    (acc.map fun e => if e.1 = sec then (e.1, e.2 ++ [r]) else e).map
        Prod.fst = acc.map Prod.fst := by
  induction acc with
  | nil => rfl
  | cons e t ih =>
    by_cases he : e.1 = sec <;> simp [he, ih]

theorem lookupSec_map_update_ne (k sec : String) (r : AuditResponse)
    (acc : List (String × List AuditResponse)) (hk : sec ≠ k) :
    lookupSec k (acc.map fun e => if e.1 = sec then (e.1, e.2 ++ [r]) else e) =
      lookupSec k acc := by
  induction acc with
  | nil => rfl
  | cons e t ih =>
    have hks : ¬(k = sec) := fun h => hk h.symm
    by_cases he : e.1 = sec
    · have hek : e.1 ≠ k := by rw [he]; exact hk
      simp [lookupSec, he, hek, ih, hk]
    · by_cases hek : e.1 = k <;> simp [lookupSec, he, hek, ih, hk, hks]

theorem lookupSec_map_update_eq (sec : String) (r : AuditResponse)
    (acc : List (String × List AuditResponse))
    (hp : ∃ e ∈ acc, e.1 = sec) :
    lookupSec sec
        (acc.map fun e => if e.1 = sec then (e.1, e.2 ++ [r]) else e) =
      lookupSec sec acc ++ [r] := by
  induction acc with
  | nil => simp at hp
  | cons e t ih =>
    by_cases he : e.1 = sec
    · simp [lookupSec, he]
    · have hp' : ∃ e' ∈ t, e'.1 = sec := by
        rcases hp with ⟨e', he', hsec⟩
        rcases List.mem_cons.mp he' with h | h
        · exact absurd (h ▸ hsec) he
        · exact ⟨e', h, hsec⟩
      simp [lookupSec, he, ih hp']

theorem lookupSec_append_singleton (k sec : String) (r : AuditResponse)
    (acc : List (String × List AuditResponse))
    (habs : ∀ e ∈ acc, e.1 ≠ sec) :
    lookupSec k (acc ++ [(sec, [r])]) =
      lookupSec k acc ++ (if sec = k then [r] else []) := by
  induction acc with
  | nil => simp [lookupSec]
  | cons e t ih =>
    by_cases hek : e.1 = k
    · have : sec ≠ k := fun h => habs e (by simp) (by rw [hek, h])
      simp [lookupSec, hek, this]
    · simp [lookupSec, hek, ih (fun e' he' => habs e' (by simp [he']))]

theorem map_fst_addToSections (acc : List (String × List AuditResponse))
    (r : AuditResponse) :
    (addToSections acc r).map Prod.fst =
      if acc.any (fun e => e.1 = r.checklist_item.«section») then
        acc.map Prod.fst
      else acc.map Prod.fst ++ [r.checklist_item.«section»] := by
  unfold addToSections
  by_cases h : (acc.any fun e => e.1 = r.checklist_item.«section») = true
  · rw [if_pos h, if_pos h, map_fst_update]
  · rw [if_neg h, if_neg h]
    simp

theorem lookupSec_addToSections (acc : List (String × List AuditResponse))
    (r : AuditResponse) (k : String) :
    lookupSec k (addToSections acc r) =
      lookupSec k acc ++
        (if r.checklist_item.«section» = k then [r] else []) := by
  unfold addToSections
  by_cases h : (acc.any fun e => e.1 = r.checklist_item.«section») = true
  · simp only [if_pos h]
    by_cases hk : r.checklist_item.«section» = k
    · subst hk
      have hp : ∃ e ∈ acc, e.1 = r.checklist_item.«section» := by
        simpa using h
      rw [lookupSec_map_update_eq _ r acc hp]
      simp
    · rw [lookupSec_map_update_ne k _ r acc hk]
      simp [hk]
  · simp only [if_neg h]
    have habs : ∀ e ∈ acc, e.1 ≠ r.checklist_item.«section» := by
      intro e he hcontra
      exact h (List.any_eq_true.mpr ⟨e, he, by simp [hcontra]⟩)
    rw [lookupSec_append_singleton k _ r acc habs]

theorem nodup_keys_groupBy (rs : List AuditResponse) :
    ((List.foldl addToSections [] rs).map Prod.fst).Nodup := by
  induction rs using List.reverseRecOn with
  | nil => simp
  | append_singleton t r ih =>
    rw [List.foldl_append, List.foldl_cons, List.foldl_nil,
      map_fst_addToSections]
    by_cases h : ((List.foldl addToSections [] t).any
        fun e => e.1 = r.checklist_item.«section») = true
    · rw [if_pos h]; exact ih
    · rw [if_neg h]
      refine List.Nodup.append ih (List.nodup_singleton _) ?_
      intro k hk hk'
      rcases List.mem_map.mp hk with ⟨e, he, hfst⟩
      rcases List.mem_singleton.mp hk' with rfl
      exact h (List.any_eq_true.mpr ⟨e, he, by simp [hfst]⟩)

theorem lookupSec_groupBy (rs : List AuditResponse) (k : String) :
    lookupSec k (List.foldl addToSections [] rs) =
      rs.filter fun r => r.checklist_item.«section» == k := by
  induction rs using List.reverseRecOn with
  | nil => rfl
  | append_singleton t r ih =>
    rw [List.foldl_append, List.foldl_cons, List.foldl_nil,
      lookupSec_addToSections, ih, List.filter_append]
    congr 1
    by_cases hk : r.checklist_item.«section» = k <;> simp [hk]

theorem mem_keys_groupBy (rs : List AuditResponse) (k : String) :
    k ∈ (List.foldl addToSections [] rs).map Prod.fst ↔
      ∃ r ∈ rs, r.checklist_item.«section» = k := by
  induction rs using List.reverseRecOn with
  | nil => simp
  | append_singleton t r ih =>
    rw [List.foldl_append, List.foldl_cons, List.foldl_nil,
      map_fst_addToSections]
    by_cases h : ((List.foldl addToSections [] t).any
        fun e => e.1 = r.checklist_item.«section») = true
    · rw [if_pos h]
      constructor
      · intro hk
        rcases ih.mp hk with ⟨r', hr', heq⟩
        exact ⟨r', List.mem_append_left _ hr', heq⟩
      · rintro ⟨r', hr', heq⟩
        rcases List.mem_append.mp hr' with hin | hin
        · exact ih.mpr ⟨r', hin, heq⟩
        · rcases List.mem_singleton.mp hin with rfl
          rcases List.any_eq_true.mp h with ⟨e, he, hfst⟩
          refine List.mem_map.mpr ⟨e, he, ?_⟩
          rw [← heq]
          exact of_decide_eq_true hfst
    · rw [if_neg h, List.mem_append, ih, List.mem_singleton]
      constructor
      · rintro (⟨r', hr', heq⟩ | rfl)
        · exact ⟨r', List.mem_append_left _ hr', heq⟩
        · exact ⟨r, List.mem_append_right _ (List.mem_singleton_self r), rfl⟩
      · rintro ⟨r', hr', heq⟩
        rcases List.mem_append.mp hr' with hin | hin
        · exact Or.inl ⟨r', hin, heq⟩
        · rcases List.mem_singleton.mp hin with rfl
          exact Or.inr heq.symm

theorem lookupSec_of_mem_nodup (groups : List (String × List AuditResponse))
    (h : (groups.map Prod.fst).Nodup) (k : String) (l : List AuditResponse)
    (hm : (k, l) ∈ groups) : lookupSec k groups = l := by
  induction groups with
  | nil => cases hm
  | cons e t ih =>
    rcases List.mem_cons.mp hm with rfl | hm'
    · simp [lookupSec]
    · have hnek : e.1 ≠ k := by
        intro hcontra
        have : k ∈ t.map Prod.fst := List.mem_map.mpr ⟨(k, l), hm', rfl⟩
        rw [List.map_cons, List.nodup_cons, hcontra] at h
        exact h.1 this
      simp only [lookupSec, if_neg hnek]
      exact ih (by rw [List.map_cons, List.nodup_cons] at h; exact h.2) hm'

theorem digitChar_ne_space (n : Nat) : digitChar n ≠ ' ' := by
  have h : n % 10 = 0 ∨ n % 10 = 1 ∨ n % 10 = 2 ∨ n % 10 = 3 ∨ n % 10 = 4 ∨
      n % 10 = 5 ∨ n % 10 = 6 ∨ n % 10 = 7 ∨ n % 10 = 8 ∨ n % 10 = 9 := by
    omega
  rcases h with h|h|h|h|h|h|h|h|h|h <;> simp [digitChar, h]

theorem splitFirstAux_eq_none (sep : List Char) (l : List Char)
    (h : ∀ i < l.length, ¬ sep.isPrefixOf (l.drop i)) :
    splitFirstAux sep l = none := by
  induction l with
  | nil => rfl
  | cons c cs ih =>
    have h0 : ¬ sep.isPrefixOf (c :: cs) := by
      have := h 0 (by simp)
      simpa using this
    have hrec : splitFirstAux sep cs = none := by
      refine ih fun i hi => ?_
      have := h (i + 1) (by simpa using Nat.succ_lt_succ hi)
      simpa using this
    simp [splitFirstAux, h0, hrec]

/-! ## Claim theorems -/

/-- C1: `add_response` always appends and never rejects — a second response
for the same (section, item, context) key grows `responses` by exactly one
and leaves every prior response (in particular every prior response for that
key) in place; the clear-by-key loop removes exactly the responses matching
the key and no others, and the remaining responses keep their relative order
(the result is exactly the order-preserving filter keeping the
non-matching responses). -/
theorem add_response_appends_and_clearing_filters
    (s : AuditSession) (r : AuditResponse)
    (k : String × String × Option String) (rs : List AuditResponse) :
    (s.add_response r).responses.length = s.responses.length + 1 ∧
    (s.add_response r).responses = s.responses ++ [r] ∧
    (s.add_response r).responses.filter (matchesKey k) =
      s.responses.filter (matchesKey k) ++
        (if matchesKey k r then [r] else []) ∧
    clearMatching rs (matchesKey k) =
      rs.filter fun x => !(matchesKey k x) := by
  refine ⟨by simp [AuditSession.add_response], rfl, ?_, ?_⟩
  · show (s.responses ++ [r]).filter (matchesKey k) = _
    rw [List.filter_append]
    congr 1
    cases h : matchesKey k r <;> simp [List.filter, h]
  · exact foldl_erase_filter _ rs

/-- C2: for every session state, `get_responses_by_section` partitions the
current responses list: keys are distinct, the list stored under key `k` is
exactly the insertion-ordered sublist of responses whose section is `k`,
a key is present iff some response has that section (so no section maps to
an empty list), every response occurs in its own section's list, and in no
other. -/
theorem get_responses_by_section_partitions (s : AuditSession) :
    (s.get_responses_by_section.map Prod.fst).Nodup ∧
    (∀ k, lookupSec k s.get_responses_by_section =
      s.responses.filter fun r => r.checklist_item.«section» == k) ∧
    (∀ k, k ∈ s.get_responses_by_section.map Prod.fst ↔
      ∃ r ∈ s.responses, r.checklist_item.«section» = k) ∧
    (∀ e ∈ s.get_responses_by_section, e.2 ≠ []) ∧
    (∀ r ∈ s.responses,
      r ∈ lookupSec r.checklist_item.«section» s.get_responses_by_section) ∧
    (∀ k, ∀ r ∈ lookupSec k s.get_responses_by_section,
      r.checklist_item.«section» = k ∧ r ∈ s.responses) := by
  refine ⟨nodup_keys_groupBy s.responses, lookupSec_groupBy s.responses,
    mem_keys_groupBy s.responses, ?_, ?_, ?_⟩
  · intro e he hemp
    have hk : e.1 ∈ (List.foldl addToSections [] s.responses).map Prod.fst :=
      List.mem_map.mpr ⟨e, he, rfl⟩
    rcases (mem_keys_groupBy s.responses e.1).mp hk with ⟨r, hr, hsec⟩
    have hmem : r ∈ lookupSec e.1 (List.foldl addToSections [] s.responses) := by
      rw [lookupSec_groupBy]
      exact List.mem_filter.mpr ⟨hr, by simp [hsec]⟩
    have hlook : lookupSec e.1 (List.foldl addToSections [] s.responses) =
        e.2 := by
      obtain ⟨k, l⟩ := e
      exact lookupSec_of_mem_nodup _ (nodup_keys_groupBy s.responses) k l he
    rw [hlook, hemp] at hmem
    cases hmem
  · intro r hr
    rw [AuditSession.get_responses_by_section, lookupSec_groupBy]
    exact List.mem_filter.mpr ⟨hr, by simp⟩
  · intro k r hmem
    rw [AuditSession.get_responses_by_section, lookupSec_groupBy] at hmem
    have h := List.mem_filter.mp hmem
    exact ⟨by simpa using h.2, h.1⟩

/-- Witness for C2 at a concrete session: the worked-example response is in
its own section's partition. -/
theorem get_responses_by_section_partitions_witness :
    sampleResponse ∈
      lookupSec "Main Lobby"
        ((emptySession.add_response sampleResponse).get_responses_by_section) :=
  (get_responses_by_section_partitions
    (emptySession.add_response sampleResponse)).2.2.2.2.1 sampleResponse
    (by decide)

/-- C3 counterexample: the stored rating `"9 - foo"` matches no canonical
option, so the claim requires both outputs to pass it through verbatim; the
tabular side does, but the document side (`rating_description`) renders
`"foo"`, the substring after the first `" - "`, not the raw string. -/
theorem rating_resolution_verbatim_counterexample :
    (∀ opt ∈ RATING_OPTIONS, ¬ (ratingNum "9 - foo").isPrefixOf opt.data) ∧
    resolveRating "9 - foo" = "9 - foo" ∧
    offScaleResponse.rating = "9 - foo" ∧
    offScaleResponse.rating_description = "foo" ∧
    "foo" ≠ "9 - foo" := by decide

/-- C3 (amended): the tabular exporter renders, for each stored rating, the
first canonical option whose text starts with the rating's numeric prefix
(the part before the first `" - "`), falling back to the raw stored string
when no option matches; the document exporter renders the substring of the
stored rating itself after the first `" - "` (the raw string when the
delimiter is absent) — it does not consult the canonical list.  For stored
ratings that are themselves canonical options the two sides therefore show
the full canonical option and its descriptive suffix; a rating with no
delimiter and no matching prefix passes through verbatim on both sides, and
neither side ever crashes (both functions are total). -/
theorem rating_resolution_amended :
    (∀ opt ∈ RATING_OPTIONS, resolveRating opt = opt) ∧
    (ratingDescriptionStr "1 - Needs to be changed due to age-related factors" =
        "Needs to be changed due to age-related factors" ∧
      ratingDescriptionStr "2 - Needs to be changed to match competing hotels" =
        "Needs to be changed to match competing hotels" ∧
      ratingDescriptionStr "3 - Not applicable" = "Not applicable" ∧
      ratingDescriptionStr "4 - No action required" = "No action required") ∧
    (∀ rating : String,
      (∀ opt ∈ RATING_OPTIONS, ¬ (ratingNum rating).isPrefixOf opt.data) →
      resolveRating rating = rating) ∧
    (∀ rating : String,
      (∀ i < rating.data.length, ¬ DELIM.isPrefixOf (rating.data.drop i)) →
      ratingDescriptionStr rating = rating) := by
  refine ⟨by decide, by decide, ?_, ?_⟩
  · intro rating h
    unfold resolveRating
    have hnone : (RATING_OPTIONS.find? fun opt =>
        (ratingNum rating).isPrefixOf opt.data) = none :=
      List.find?_eq_none.mpr fun x hx => by simpa using h x hx
    rw [hnone]
    rfl
  · intro rating h
    unfold ratingDescriptionStr
    rw [splitFirstAux_eq_none DELIM rating.data h]

/-- Witness for C3 (amended) at the concrete rating `"unrated"`. -/
theorem rating_resolution_amended_witness :
    resolveRating "unrated" = "unrated" ∧
    ratingDescriptionStr "unrated" = "unrated" :=
  ⟨rating_resolution_amended.2.2.1 "unrated" (by decide),
   rating_resolution_amended.2.2.2 "unrated" (by decide)⟩

/-- C4 counterexample: a stored response whose `context` and `photo_file`
are the empty string (not `None`).  The claim as stated requires the row to
show the response's own context (`""`) and `Photo = "Yes"` (a photo
reference is present); the code's Python-truthiness tests render
`Context = "General"` and `Photo = "No"` instead. -/
theorem excel_row_contract_counterexample :
    (emptyStringFieldsSession.responses.map fun r => r.context) = [some ""] ∧
    (emptyStringFieldsSession.responses.map fun r => r.photo_file.isSome) =
      [true] ∧
    ((generate_excel_data emptyStringFieldsSession).rows.map fun row =>
      row.Context) = ["General"] ∧
    ((generate_excel_data emptyStringFieldsSession).rows.map fun row =>
      row.Photo) = ["No"] ∧
    (some "" : Option String).getD "General" ≠ "General" := by decide

/-- C4 (amended): one row per response in insertion order; `Context` is the
response's context when that is a non-empty string and `"General"` when the
context is absent or empty; `Photo` is `"Yes"` exactly when `photo_file` is
a non-empty string and `"No"` when it is absent or empty; `Timestamp` is the
minute-precision rendering; `Rating` is the canonical option resolved by
numeric-prefix match with raw fallback.  The spec's worked example (single
response, section "Main Lobby", item "Flooring condition", canonical rating
2, comment "Worn carpet", no context, no photo) yields exactly one row with
`Context = "General"`, `Photo = "No"` and the full canonical rating
string. -/
theorem excel_row_contract_amended (s : AuditSession) (t : DateTime) :
    (generate_excel_data s).rows.length = s.responses.length ∧
    (generate_excel_data s).rows =
      s.responses.map (fun r =>
        { Section := r.checklist_item.«section»
          Item := r.checklist_item.item
          Rating := resolveRating r.rating
          Comment := r.comment
          Context := match r.context with
            | none => "General"
            | some c => if c = "" then "General" else c
          Photo := match r.photo_file with
            | none => "No"
            | some p => if p = "" then "No" else "Yes"
          Timestamp := r.timestamp.minuteFormat }) ∧
    ((generate_excel_data (exampleSession t)).rows.map fun row =>
        (row.Section, row.Item, row.Rating, row.Comment, row.Context,
          row.Photo)) =
      [("Main Lobby", "Flooring condition",
        "2 - Needs to be changed to match competing hotels", "Worn carpet",
        "General", "No")] ∧
    ((generate_excel_data (exampleSession t)).rows.map fun row =>
        row.Timestamp) = [t.minuteFormat] := by
  exact ⟨by simp [generate_excel_data], rfl, rfl, rfl⟩

/-- C5 counterexample: for a session with no responses the claim requires
the exported table to still carry the seven column headers; but
`pd.DataFrame([])` infers no columns at all, so the empty export has an
empty column list, not the seven headers. -/
theorem empty_export_headers_counterexample :
    emptySession.responses = [] ∧
    (generate_excel_data emptySession).rows = [] ∧
    (generate_excel_data emptySession).columns = [] ∧
    (generate_excel_data emptySession).columns ≠ EXCEL_HEADERS := by decide

/-- C5 (amended): for a session whose responses list is empty, the tabular
exporter produces an empty table with no data rows — and no column headers
either, since pandas infers the columns of `DataFrame(data)` from the row
dicts and there are none.  (The app's export button then refuses to export
an empty frame and shows a warning instead.) -/
theorem empty_export_amended (s : AuditSession) (h : s.responses = []) :
    (generate_excel_data s).rows = [] ∧
    (generate_excel_data s).columns = [] := by
  simp [generate_excel_data, h]

/-- Witness for C5 (amended) at the concrete empty session. -/
theorem empty_export_amended_witness :
    (generate_excel_data emptySession).rows = [] ∧
    (generate_excel_data emptySession).columns = [] :=
  empty_export_amended emptySession rfl

/-- C6: `load_master_checklist` is a total function of the load outcome
(never raises): a successful parse is returned as-is; on a missing file it
returns the default catalog mapping each of the nine general categories and
the three specialized sections to an empty item list; on any other failure
it returns the empty mapping. -/
theorem load_master_checklist_fallback :
    (∀ c, load_master_checklist (.ok c) = c) ∧
    load_master_checklist .fileNotFound =
      [("Facade & Structure", []), ("Main Lobby", []),
       ("Corridors & Hallways", []), ("Public Toilets", []),
       ("Spa & Wellness", []), ("Fitness Center", []),
       ("Swimming Pools", []), ("Landscaping & Outdoor", []),
       ("Parking & Entry", []), ("F&B Outlets", []),
       ("Ballrooms & Meeting Rooms", []), ("Guestroom", [])] ∧
    load_master_checklist .otherError = [] :=
  ⟨fun _ => rfl, rfl, rfl⟩

/-- C7: `save_to_file` returns the intended `audits/{session_id}.json` and
`generate_pdf_report` the intended `audits/{session_id}.pdf` whether or not
the write succeeds; a failed write only surfaces an error; the session state
after either call is the unchanged session (the Python methods assign to no
attribute). -/
theorem save_and_pdf_return_intended_path (s : AuditSession) :
    (∀ ok : Bool,
      (s.save_to_file ok).1 = "audits/" ++ s.session_id ++ ".json" ∧
      (s.save_to_file ok).2.2 = s ∧
      (s.save_to_file ok).2.1 = !ok) ∧
    (s.save_to_file true).1 = (s.save_to_file false).1 ∧
    (∀ ok : Bool,
      (generate_pdf_report s ok).2.1 = "audits/" ++ s.session_id ++ ".pdf" ∧
      (generate_pdf_report s ok).2.2.2 = s ∧
      (generate_pdf_report s ok).2.2.1 = !ok) ∧
    (generate_pdf_report s true).2.1 = (generate_pdf_report s false).2.1 :=
  ⟨fun _ => ⟨rfl, rfl, rfl⟩, rfl, fun _ => ⟨rfl, rfl, rfl⟩, rfl⟩

/-- C8: `AuditSession.to_dict` serializes one entry per response in
insertion order; each entry's fields equal the response's attributes (the
timestamp as its ISO-8601 string); and the serialized entry determines the
response's section, item, rating, comment, context, photo file (hence photo
presence) and — for the valid timestamps Python `datetime` produces — the
exact timestamp, so reconstruction from the dict recovers them all. -/
theorem to_dict_round_trip :
    (∀ s : AuditSession,
      s.to_dict.responses = s.responses.map AuditResponse.to_dict) ∧
    (∀ r : AuditResponse,
      r.to_dict.«section» = r.checklist_item.«section» ∧
      r.to_dict.item = r.checklist_item.item ∧
      r.to_dict.rating = r.rating ∧
      r.to_dict.comment = r.comment ∧
      r.to_dict.context = r.context ∧
      r.to_dict.photo_file = r.photo_file ∧
      r.to_dict.timestamp = r.timestamp.isoformat) ∧
    (∀ r₁ r₂ : AuditResponse, r₁.timestamp.Valid → r₂.timestamp.Valid →
      r₁.to_dict = r₂.to_dict →
      r₁.checklist_item.«section» = r₂.checklist_item.«section» ∧
      r₁.checklist_item.item = r₂.checklist_item.item ∧
      r₁.rating = r₂.rating ∧
      r₁.comment = r₂.comment ∧
      r₁.context = r₂.context ∧
      r₁.photo_file = r₂.photo_file ∧
      r₁.photo_file.isSome = r₂.photo_file.isSome ∧
      r₁.timestamp = r₂.timestamp) := by
  refine ⟨fun s => rfl, fun r => ⟨rfl, rfl, rfl, rfl, rfl, rfl, rfl⟩, ?_⟩
  intro r₁ r₂ v₁ v₂ h
  simp only [AuditResponse.to_dict, ResponseDict.mk.injEq] at h
  obtain ⟨hctx, hsec, hitem, hnote, hrat, hcom, hphoto, hts⟩ := h
  exact ⟨hsec, hitem, hrat, hcom, hctx, hphoto, by rw [hphoto],
    isoformat_inj _ _ v₁ v₂ hts⟩

/-- Witness for C8 at the concrete worked-example response. -/
theorem to_dict_round_trip_witness :
    sampleResponse.timestamp = sampleResponse.timestamp :=
  (to_dict_round_trip.2.2 sampleResponse sampleResponse (by decide)
    (by decide) rfl).2.2.2.2.2.2.2

/-- C9: a response whose stored rating is the empty string gets, in the
tabular exporter, the first canonical rating option — the numeric-prefix
extraction of `""` is `""`, and every canonical option starts with the empty
string, so the prefix search returns the head of `RATING_OPTIONS` rather
than falling back to the raw empty string. -/
theorem empty_rating_resolves_first_option :
    (∀ r : AuditResponse, r.rating = "" →
      (excelRowOf r).Rating =
        "1 - Needs to be changed due to age-related factors") ∧
    resolveRating "" = "1 - Needs to be changed due to age-related factors" ∧
    ratingNum "" = [] ∧
    (∀ opt ∈ RATING_OPTIONS, ([] : List Char).isPrefixOf opt.data) ∧
    RATING_OPTIONS.head? =
      some "1 - Needs to be changed due to age-related factors" := by
  refine ⟨?_, by decide, by decide, by decide, by decide⟩
  intro r h
  show resolveRating r.rating = _
  rw [h]
  decide

/-- Witness for C9 at a concrete empty-rating response. -/
theorem empty_rating_resolves_first_option_witness :
    (excelRowOf emptyRatingResponse).Rating =
      "1 - Needs to be changed due to age-related factors" :=
  empty_rating_resolves_first_option.1 emptyRatingResponse rfl

theorem compactFormat_no_space (t : DateTime) :
    ∀ c ∈ t.compactFormat.data, c ≠ ' ' := by
  intro c hc
  simp [DateTime.compactFormat, pad4, pad2] at hc
  rcases hc with rfl|rfl|rfl|rfl|rfl|rfl|rfl|rfl|rfl|rfl|rfl|rfl|rfl|rfl|rfl <;>
    first
      | exact digitChar_ne_space _
      | decide

/-- C10: the `session_id` is the hotel name (literal `"Hotel"` when the
`hotel_info` mapping has no name) with every space turned into an
underscore, then an underscore, then the creation instant as
`%Y%m%d_%H%M%S`; consequently a `session_id` never contains a space. -/
theorem session_id_shape (info : HotelInfo) (t : DateTime) (a : String) :
    (sessionIdOf info t).data =
      ((info.name.getD "Hotel").data.map fun c => if c = ' ' then '_' else c)
        ++ '_' :: t.compactFormat.data ∧
    (AuditSession.init info a t).session_id = sessionIdOf info t ∧
    ∀ c ∈ (sessionIdOf info t).data, c ≠ ' ' := by
  have h1 : (sessionIdOf info t).data =
      ((info.name.getD "Hotel").data.map fun c => if c = ' ' then '_' else c)
        ++ '_' :: t.compactFormat.data := by
    show (replaceSpaces (info.name.getD "Hotel") ++ "_" ++
        t.compactFormat).data = _
    rw [String.data_append, String.data_append]
    show ((info.name.getD "Hotel").data.map fun c => if c = ' ' then '_' else c)
        ++ ['_'] ++ t.compactFormat.data = _
    rw [List.append_assoc]
    rfl
  refine ⟨h1, rfl, ?_⟩
  intro c hc
  rw [h1] at hc
  rcases List.mem_append.mp hc with hmem | hmem
  · rcases List.mem_map.mp hmem with ⟨c₀, _, rfl⟩
    by_cases h0 : c₀ = ' '
    · simp [h0]
    · simp only [if_neg h0]
      exact h0
  · rcases List.mem_cons.mp hmem with rfl | hmem'
    · decide
    · exact compactFormat_no_space t c hmem'
